import Mathlib

/-!
Verification of the Text Decoder backend API (src/app.py) against its
natural-language specification.

The development shallowly embeds the request-processing pipeline of the
Flask application: the JSON data model produced by json.loads, the
Python-semantics helpers the handlers rely on (truthiness, membership,
subscripting, len), the sanitizer built on the bleach dependency, the
response-envelope builders, and the route handlers relevant to the claims.
Handlers are embedded as pure functions of the request pieces they read
(rate-limit outcome, Authorization header, parsed body, model reply,
timestamp), returning the HTTP response together with the list of
generation configurations the handler passed to the external model.
-/

namespace Decoder

/-- JSON values as returned by the Python json.loads call used in the
handlers.  Numbers keep their source lexeme: the application never uses a
number value arithmetically, only its Python type and truthiness matter. -/
inductive Json where
  | null : Json
  | bool (b : Bool) : Json
  | num (raw : String) : Json
  | str (s : String) : Json
  | arr (elems : List Json) : Json
  | obj (members : List (String × Json)) : Json

/-- Lookup of a key in the association list backing a Python dict. -/
def lookupKey (k : String) : List (String × Json) → Option Json
  | [] => none
  | (k2, v) :: rest => if k2 = k then some v else lookupKey k rest

/-- Insertion into a Python dict: a duplicate key overwrites the stored
value in place, as dict construction does during json.loads. -/
def dictInsert (k : String) (v : Json) : List (String × Json) → List (String × Json)
  | [] => [(k, v)]
  | (k2, v2) :: rest =>
      if k2 = k then (k2, v) :: rest else (k2, v2) :: dictInsert k v rest

/-- Whether a numeric lexeme denotes zero (its mantissa has digits and all
of them are 0); NaN and Infinity lexemes have no mantissa digits and are
therefore not zero. -/
def numIsZero (raw : String) : Bool :=
  let mantissa := raw.data.takeWhile (fun c => ¬ (c = 'e' ∨ c = 'E'))
  mantissa.any Char.isDigit && mantissa.all (fun c => ¬ c.isDigit ∨ c = '0')

/-- Python truthiness of a json.loads value, as tested by `if not data`. -/
def pyTruthy : Json → Bool
  | .null => false
  | .bool b => b
  | .num raw => ¬ numIsZero raw
  | .str s => s ≠ ""
  | .arr l => ! l.isEmpty
  | .obj m => ! m.isEmpty

/-- Python len() on a json.loads value: defined for str, list and dict,
a TypeError (modelled as none) for numbers, booleans and None. -/
def pyLen : Json → Option Nat
  | .str s => some s.length
  | .arr l => some l.length
  | .obj m => some m.length
  | _ => none

/-- Python equality of a str against a json.loads value (str compares
equal only to an equal str). -/
def pyEqStr (k : String) : Json → Bool
  | .str s => s == k
  | _ => false

/-- Contiguous-substring test on character lists, modelling the Python
`in` operator on strings. -/
def charsContain (needle : List Char) : List Char → Bool
  | [] => needle.isEmpty
  | c :: rest => needle.isPrefixOf (c :: rest) || charsContain needle rest

/-- Python `k not in data` for a str k: key test on a dict, membership on
a list, substring test on a str, TypeError (none) on numbers, booleans
and None. -/
def pyNotIn (k : String) : Json → Option Bool
  | .obj m => some (lookupKey k m).isNone
  | .arr l => some (! l.any (pyEqStr k))
  | .str s => some (! charsContain k.data s.data)
  | _ => none

/-- Python subscripting data[k] with a str key: only defined on a dict
holding the key. -/
def pySubscript (j : Json) (k : String) : Option Json :=
  match j with
  | .obj m => lookupKey k m
  | _ => none

/-- Python data.get(k, dflt): AttributeError (none) when data is not a
dict. -/
def pyGet (j : Json) (k : String) (dflt : Json) : Option Json :=
  match j with
  | .obj m => some ((lookupKey k m).getD dflt)
  | _ => none

/-- Whether a numeric lexeme is a Python float rather than an int (it has
a fraction, an exponent, or is one of the non-finite lexemes). -/
def numIsFloat (raw : String) : Bool :=
  raw.data.any (fun c => c = '.' ∨ c = 'e' ∨ c = 'E' ∨ c = 'N' ∨ c = 'I')

/-- Python type(data).NAME for a json.loads value, as interpolated into
the accessibility block by create_accessible_response. -/
def pyTypeName : Json → String
  | .null => "NoneType"
  | .bool _ => "bool"
  | .num raw => if numIsFloat raw then "float" else "int"
  | .str _ => "str"
  | .arr _ => "list"
  | .obj _ => "dict"

/-- Python code-point slicing s[:n], used by sanitize_input and by the
sync and delete handlers. -/
def pyTruncate (s : String) (n : Nat) : String :=
  ⟨s.data.take n⟩

/-! The bleach dependency.  sanitize_input calls
bleach.clean(text, tags=[], strip=True): html5lib first normalizes the
input stream (CRLF and bare CR become LF, NUL becomes the U+FFFD
replacement character), then every markup tag is dropped (strip-all
policy, no allow-list) and the surviving text is serialized with the
characters ampersand, less-than and greater-than escaped to their HTML
entities — the documented behaviour of bleach.  The model below
reproduces the stream normalization, the tag dropping including quoted
attribute values (a greater-than sign inside a value quoted after an
equals sign does not end the tag), and the text escaping.  Residual
html5lib behaviour it does not reproduce — decoding and re-encoding of
character references (an ampersand followed by a reference body), the
full comment grammar after a bang, and a quote opening in the middle of
an unquoted attribute value — lies outside the inputs any theorem below
quantifies over: the preservation conjunct of the C5 theorem excludes
the five involved characters, and the concrete sanitizer inputs of the
theorems contain no character reference and no tag with attributes. -/

/-- Single-character normalization: CR becomes LF and NUL becomes
U+FFFD. -/
def normChar (c : Char) : Char :=
  if c = '\r' then '\n' else if c = Char.ofNat 0 then Char.ofNat 65533 else c

/-- Worker of the stream normalization; the flag records that the
previous character was a CR, whose LF partner (if any) is swallowed. -/
def normalizeAux : Bool → List Char → List Char
  | _, [] => []
  | prevCr, c :: rest =>
      if prevCr ∧ c = '\n' then normalizeAux false rest
      else if c = '\r' then '\n' :: normalizeAux true rest
      else normChar c :: normalizeAux false rest

/-- html5lib input-stream normalization, performed before tokenizing:
CRLF and bare CR become LF, and NUL becomes U+FFFD. -/
def normalizeStream (l : List Char) : List Char :=
  normalizeAux false l

/-- Characters that open a markup construct after a less-than sign in the
html5lib tokenizer: a tag name letter, a close-tag slash, a markup
declaration bang or a processing-instruction question mark. -/
def isTagOpenChar (c : Char) : Bool :=
  c.isAlpha || c = '/' || c = '!' || c = '?'

/-- Whitespace skipped by the tokenizer between an equals sign and an
attribute value (CR is already normalized to LF). -/
def skipTagWs : List Char → List Char
  | [] => []
  | c :: rest =>
      if c = ' ' ∨ c = '\t' ∨ c = '\n' ∨ c = Char.ofNat 12 then skipTagWs rest
      else c :: rest

/-- Skip a quoted attribute value through its closing quote. -/
def dropQuoted (q : Char) : List Char → List Char
  | [] => []
  | c :: rest => if c = q then rest else dropQuoted q rest

/-- Drop the remainder of a tag: an unquoted greater-than sign ends the
tag; an attribute value quoted right after an equals sign (possibly
separated by whitespace) may contain greater-than signs, following the
html5lib attribute-value states; an unterminated tag swallows the rest
of the input.  Fuelled: every step consumes at least one character, so
fuel beyond the input length never runs out. -/
def dropTagRest : Nat → List Char → List Char
  | 0, l => l
  | _ + 1, [] => []
  | fuel + 1, c :: rest =>
      if c = '>' then rest
      else if c = '=' then
        match skipTagWs rest with
        | [] => []
        | q :: rest2 =>
            if q = '"' ∨ q = '\x27' then dropTagRest fuel (dropQuoted q rest2)
            else dropTagRest fuel (q :: rest2)
      else dropTagRest fuel rest

/-- Entity escaping of a single text character by the serializer. -/
def escapeChar (c : Char) : List Char :=
  if c = '&' then "&amp;".data
  else if c = '<' then "&lt;".data
  else if c = '>' then "&gt;".data
  else [c]

/-- Strip-all tag removal plus text escaping, fuelled to keep the
recursion structural; one unit of fuel is spent per step and every step
consumes at least one input character, so any fuel beyond the input
length is sufficient. -/
def stripAndEscape : Nat → List Char → List Char
  | 0, _ => []
  | _ + 1, [] => []
  | fuel + 1, c :: rest =>
      if c = '<' then
        match rest with
        | [] => escapeChar '<'
        | c2 :: rest2 =>
            if isTagOpenChar c2 then
              stripAndEscape fuel (dropTagRest (rest2.length + 1) rest2)
            else escapeChar '<' ++ stripAndEscape fuel (c2 :: rest2)
      else escapeChar c ++ stripAndEscape fuel rest

/-- Model of bleach.clean(text, tags=[], strip=True): stream
normalization, then tag stripping with text escaping. -/
def bleachClean (s : String) : String :=
  ⟨stripAndEscape (s.data.length + 1) (normalizeStream s.data)⟩

/-- sanitize_input from src/app.py lines 74-81: falsy input yields the
empty string, otherwise the bleach-cleaned text truncated to 50000 code
points. -/
def sanitize_input (text : String) : String :=
  if text = "" then "" else pyTruncate (bleachClean text) 50000

/-- sanitize_input applied to an arbitrary request value, as the handlers
do with fields taken from the parsed body: falsy values (None, 0, empty
containers) return the empty string before bleach is reached; a truthy
non-string makes bleach.clean raise a TypeError, modelled as none. -/
def sanitizeValue : Json → Option String
  | .str s => some (sanitize_input s)
  | v => if pyTruthy v then none else some ""

/-! The json.loads dependency.  The handlers parse both the request body
and the model reply with json.loads under its default settings, so the
parser below follows that grammar: objects, arrays, strings with escape
sequences, numbers without leading zeros, the literals true, false and
null, plus the non-standard NaN, Infinity and -Infinity lexemes that the
Python decoder accepts; whitespace is space, tab, newline and carriage
return; raw control characters inside strings are rejected (strict mode);
duplicate object keys are resolved by dict insertion, last value wins.
Surrogate-pair combination of adjacent unicode escapes is not modelled
(no theorem exercises unicode escapes).  Recursion is fuelled: every
recursive call spends one unit and consumes input, so the generous fuel
supplied by jsonLoads never runs out on its input. -/

/-- JSON whitespace accepted by the Python decoder. -/
def isJsonWs (c : Char) : Bool :=
  c = ' ' || c = '\t' || c = '\n' || c = '\r'

/-- Skip leading JSON whitespace. -/
def skipWs : List Char → List Char
  | [] => []
  | c :: rest => if isJsonWs c then skipWs rest else c :: rest

/-- Split a leading run of decimal digits from the input. -/
def takeDigits : List Char → List Char × List Char
  | [] => ([], [])
  | c :: rest =>
      if c.isDigit then
        let p := takeDigits rest
        (c :: p.1, p.2)
      else ([], c :: rest)

/-- Integer part of a JSON number: 0, or a nonzero digit followed by
digits; leading zeros are rejected. -/
def lexIntPart : List Char → Option (List Char × List Char)
  | [] => none
  | c :: rest =>
      if c = '0' then some (['0'], rest)
      else if c.isDigit then
        let p := takeDigits rest
        some (c :: p.1, p.2)
      else none

/-- Optional fraction part: a dot followed by at least one digit. -/
def lexFracPart : List Char → Option (List Char × List Char)
  | '.' :: rest =>
      match takeDigits rest with
      | ([], _) => none
      | (d, r) => some ('.' :: d, r)
  | l => some ([], l)

/-- Optional exponent part: e or E, an optional sign, at least one
digit. -/
def lexExpPart : List Char → Option (List Char × List Char)
  | [] => some ([], [])
  | c :: rest =>
      if c = 'e' || c = 'E' then
        match rest with
        | [] => none
        | s :: rest2 =>
            if s = '+' || s = '-' then
              match takeDigits rest2 with
              | ([], _) => none
              | (d, r) => some (c :: s :: d, r)
            else
              match takeDigits rest with
              | ([], _) => none
              | (d, r) => some (c :: d, r)
      else some ([], c :: rest)

/-- Unsigned numeric lexeme: integer part, optional fraction, optional
exponent. -/
def lexNumberBody (l : List Char) : Option (List Char × List Char) := do
  let (i, r1) ← lexIntPart l
  let (f, r2) ← lexFracPart r1
  let (e, r3) ← lexExpPart r2
  pure (i ++ f ++ e, r3)

/-- Full numeric lexeme including the sign and the non-finite constants
the Python decoder accepts. -/
def lexNumber : List Char → Option (String × List Char)
  | [] => none
  | c :: rest =>
      if c = '-' then
        if "Infinity".data.isPrefixOf rest then some ("-Infinity", rest.drop 8)
        else (lexNumberBody rest).map fun p => (⟨'-' :: p.1⟩, p.2)
      else if "NaN".data.isPrefixOf (c :: rest) then some ("NaN", (c :: rest).drop 3)
      else if "Infinity".data.isPrefixOf (c :: rest) then some ("Infinity", (c :: rest).drop 8)
      else (lexNumberBody (c :: rest)).map fun p => (⟨p.1⟩, p.2)

/-- Value of a hexadecimal digit. -/
def hexVal (c : Char) : Option Nat :=
  if '0' ≤ c ∧ c ≤ '9' then some (c.toNat - '0'.toNat)
  else if 'a' ≤ c ∧ c ≤ 'f' then some (c.toNat - 'a'.toNat + 10)
  else if 'A' ≤ c ∧ c ≤ 'F' then some (c.toNat - 'A'.toNat + 10)
  else none

/-- Decode a single-character escape sequence. -/
def escapedChar (c : Char) : Option Char :=
  if c = '"' then some '"'
  else if c = '\\' then some '\\'
  else if c = '/' then some '/'
  else if c = 'b' then some (Char.ofNat 8)
  else if c = 'f' then some (Char.ofNat 12)
  else if c = 'n' then some '\n'
  else if c = 'r' then some '\r'
  else if c = 't' then some '\t'
  else none

/-- Lex the body of a JSON string after its opening quote, returning the
decoded characters and the input after the closing quote. -/
def lexStringChars : Nat → List Char → Option (List Char × List Char)
  | 0, _ => none
  | _ + 1, [] => none
  | fuel + 1, c :: rest =>
      if c = '"' then some ([], rest)
      else if c = '\\' then
        match rest with
        | [] => none
        | e :: rest2 =>
            if e = 'u' then
              match rest2 with
              | h1 :: h2 :: h3 :: h4 :: rest3 => do
                  let v1 ← hexVal h1
                  let v2 ← hexVal h2
                  let v3 ← hexVal h3
                  let v4 ← hexVal h4
                  let (s, r) ← lexStringChars fuel rest3
                  pure (Char.ofNat (((v1 * 16 + v2) * 16 + v3) * 16 + v4) :: s, r)
              | _ => none
            else do
              let d ← escapedChar e
              let (s, r) ← lexStringChars fuel rest2
              pure (d :: s, r)
      else if c.toNat < 32 then none
      else do
        let (s, r) ← lexStringChars fuel rest
        pure (c :: s, r)

/-- An opening curly brace. -/
def braceOpen : Char := Char.ofNat 123

/-- A closing curly brace. -/
def braceClose : Char := Char.ofNat 125

/-- Build a Python dict from object members in source order, later
duplicate keys overwriting earlier values. -/
def buildDict (pairs : List (String × Json)) : List (String × Json) :=
  pairs.foldl (fun acc p => dictInsert p.1 p.2 acc) []

mutual

/-- Parse a single JSON value after optional leading whitespace. -/
def parseVal : Nat → List Char → Option (Json × List Char)
  | 0, _ => none
  | fuel + 1, l =>
      match skipWs l with
      | [] => none
      | c :: rest =>
          if c = '"' then
            (lexStringChars fuel rest).map fun p => (Json.str ⟨p.1⟩, p.2)
          else if c = '[' then
            match skipWs rest with
            | ']' :: r => some (Json.arr [], r)
            | l2 => (parseElems fuel l2).map fun p => (Json.arr p.1, p.2)
          else if c = braceOpen then
            match skipWs rest with
            | [] => none
            | c2 :: r =>
                if c2 = braceClose then some (Json.obj [], r)
                else
                  (parseMembers fuel (c2 :: r)).map fun p => (Json.obj (buildDict p.1), p.2)
          else if c = 't' then
            if "rue".data.isPrefixOf rest then some (Json.bool true, rest.drop 3) else none
          else if c = 'f' then
            if "alse".data.isPrefixOf rest then some (Json.bool false, rest.drop 4) else none
          else if c = 'n' then
            if "ull".data.isPrefixOf rest then some (Json.null, rest.drop 3) else none
          else
            (lexNumber (c :: rest)).map fun p => (Json.num p.1, p.2)

/-- Parse the elements of a nonempty array up to the closing bracket. -/
def parseElems : Nat → List Char → Option (List Json × List Char)
  | 0, _ => none
  | fuel + 1, l => do
      let (v, r) ← parseVal fuel l
      match skipWs r with
      | ',' :: r2 => (parseElems fuel r2).map fun p => (v :: p.1, p.2)
      | ']' :: r2 => some ([v], r2)
      | _ => none

/-- Parse the members of a nonempty object up to the closing brace,
returned in source order. -/
def parseMembers : Nat → List Char → Option (List (String × Json) × List Char)
  | 0, _ => none
  | fuel + 1, l =>
      match skipWs l with
      | '"' :: r => do
          let (k, r2) ← lexStringChars fuel r
          match skipWs r2 with
          | ':' :: r3 => do
              let (v, r4) ← parseVal fuel r3
              match skipWs r4 with
              | ',' :: r5 => (parseMembers fuel r5).map fun p => ((⟨k⟩, v) :: p.1, p.2)
              | c2 :: r5 => if c2 = braceClose then some ([(⟨k⟩, v)], r5) else none
              | [] => none
          | _ => none
      | _ => none

end

/-- Model of json.loads: parse one value and require only whitespace to
remain. -/
def jsonLoads (s : String) : Option Json :=
  match parseVal (4 * s.data.length + 4) s.data with
  | some (v, rest) => if (skipWs rest).isEmpty then some v else none
  | none => none

/-! Response envelopes.  The Python builders stamp datetime.utcnow()
per envelope; the embedding abstracts the clock as a timestamp string
parameter threaded through the handlers. -/

/-- An HTTP response: status code and JSON body. -/
structure HttpResponse where
  status : Nat
  body : Json

/-- create_accessible_response from src/app.py lines 100-111. -/
def create_accessible_response (data : Json) (message : String) (ts : String) : Json :=
  Json.obj [
    ("success", .bool true),
    ("message", .str message),
    ("timestamp", .str ts),
    ("data", data),
    ("accessibility", .obj [
      ("screen_reader_summary", .str message),
      ("data_type", .str (pyTypeName data))])]

/-- create_error_response from src/app.py lines 114-125. -/
def create_error_response (error details : String) (statusCode : Nat) (ts : String) :
    HttpResponse :=
  ⟨statusCode, Json.obj [
    ("success", .bool false),
    ("error", .str error),
    ("details", .str details),
    ("timestamp", .str ts),
    ("accessibility", .obj [
      ("screen_reader_summary", .str ("Error: " ++ error)),
      ("suggested_action", .str "Please try again or contact support")])]⟩

/-- Whether field k of a JSON object is the boolean b. -/
def isBoolField (j : Json) (k : String) (b : Bool) : Bool :=
  match pySubscript j k with
  | some (Json.bool b2) => b2 == b
  | _ => false

/-- Success-envelope shape stated from the specification (section 4.6 and
the section 3 ResponseEnvelope invariant): success is the boolean true
and the message, timestamp, data and accessibility fields are present.
This definition follows the specification wording, to be compared with
the bodies the embedded code builds. -/
def isSuccessEnvelope (j : Json) : Bool :=
  isBoolField j "success" true && (pySubscript j "message").isSome &&
  (pySubscript j "timestamp").isSome && (pySubscript j "data").isSome &&
  (pySubscript j "accessibility").isSome

/-- Error-envelope shape stated from the specification: success is the
boolean false and the error, details, timestamp and accessibility fields
are present.  Also a specification-side definition. -/
def isErrorEnvelope (j : Json) : Bool :=
  isBoolField j "success" false && (pySubscript j "error").isSome &&
  (pySubscript j "details").isSome && (pySubscript j "timestamp").isSome &&
  (pySubscript j "accessibility").isSome

/-- Whether a response body carries a success field at all. -/
def hasSuccessField (j : Json) : Bool :=
  (pySubscript j "success").isSome

/-- Top-level field of a response body. -/
def respField (r : HttpResponse) (k : String) : Option Json :=
  pySubscript r.body k

/-- Field of the data object of a response body. -/
def respDataField (r : HttpResponse) (k : String) : Option Json :=
  match pySubscript r.body "data" with
  | some d => pySubscript d k
  | none => none

/-! Generation configurations: the genai.types.GenerationConfig literals
passed to generate_content by each analysis route.  Temperatures are the
source float literals read as rationals; a missing max_output_tokens
keyword is none; response_mime_type application/json is the
structured-output hint. -/

/-- A generation configuration as passed to the external model. -/
structure GenerationConfig where
  temperature : ℚ
  responseMimeType : String
  maxOutputTokens : Option Nat

/-- GenerationConfig of identify_speakers, lines 492-495: temperature
0.3, JSON mime type, and no max_output_tokens keyword. -/
def speakerIdentificationConfig : GenerationConfig :=
  ⟨0.3, "application/json", none⟩

/-- GenerationConfig of analyze_conversation, lines 562-566. -/
def conversationAnalysisConfig : GenerationConfig :=
  ⟨0.4, "application/json", some 8192⟩

/-- GenerationConfig of analyze_response_impact, lines 626-630. -/
def responseImpactConfig : GenerationConfig :=
  ⟨0.5, "application/json", some 4096⟩

/-- GenerationConfig of analyze_profile, lines 680-684. -/
def profileAnalysisConfig : GenerationConfig :=
  ⟨0.4, "application/json", some 8192⟩

/-- GenerationConfig of analyze_self_profile, lines 734-738. -/
def selfProfileConfig : GenerationConfig :=
  ⟨0.4, "application/json", some 8192⟩

/-! Route handlers.  Each embedded handler is a function of the pieces of
request state it reads and returns the response paired with the list of
generation configurations it passed to generate_content (empty when the
model was never invoked).  The decorator stack routes a request through
the rate limiter first — flask-limiter enforces the per-route quota in
the before_request phase, and the limiter.limit decorator in any case
wraps outside validate_api_key — then through the bearer-shape check of
validate_api_key, and only then into the view body. -/

/-- The 401 response returned by the validate_api_key decorator, lines
88-93.  Its body is a plain error/message object, not an envelope. -/
def unauthorizedResponse : HttpResponse :=
  ⟨401, Json.obj [
    ("error", .str "Unauthorized"),
    ("message", .str "Valid authentication token required")]⟩

/-- The 429 response produced by the rate_limit_exceeded errorhandler,
lines 973-979, when the rate limiter rejects a request. -/
def rateLimitResponse (ts : String) : HttpResponse :=
  create_error_response "Rate Limit Exceeded"
    "Too many requests. Please wait before trying again." 429 ts

/-- Bearer-shape check of validate_api_key, line 89: the Authorization
header is present and starts with the Bearer scheme (startswith on code
points). -/
def bearerOk : Option String → Bool
  | none => false
  | some h => "Bearer ".data.isPrefixOf h.data

/-- The 500 envelope returned by the generic except clause of
identify_speakers, lines 516-522. -/
def analysisFailedIdentify (ts : String) : HttpResponse :=
  create_error_response "Analysis failed"
    "Unable to process the conversation. Please try again." 500 ts

/-- The 500 envelope returned by the generic except clause of
analyze_conversation, lines 583-589. -/
def analysisFailedConversation (ts : String) : HttpResponse :=
  create_error_response "Analysis failed"
    "Unable to analyze the conversation. Please try again." 500 ts

/-- The fallback object built by identify_speakers when the model reply
fails JSON parsing, lines 501-509. -/
def speakerFallback (reply : String) : Json :=
  Json.obj [
    ("speakers_identified", .arr [.str "Speaker 1", .str "Speaker 2"]),
    ("messages", .arr []),
    ("analysis_notes", .str reply),
    ("confidence_overall", .num "0.5"),
    ("raw_response", .str reply)]

/-- Everything identify_speakers does from the generate_content call on,
lines 490-522: a raised call (modelOutcome none) reaches the generic
except clause; otherwise the reply is parsed, with the fallback object
replacing an unparsable reply, and the success message interpolates len
of the speakers_identified entry via result.get — a result without a get
attribute or an entry without len raises, reaching the same except
clause. -/
def identifySpeakersModelPhase (modelOutcome : Option String) (ts : String) : HttpResponse :=
  match modelOutcome with
  | none => analysisFailedIdentify ts
  | some reply =>
      match pyGet ((jsonLoads reply).getD (speakerFallback reply))
          "speakers_identified" (Json.arr []) with
      | none => analysisFailedIdentify ts
      | some entry =>
          match pyLen entry with
          | none => analysisFailedIdentify ts
          | some n =>
              ⟨200, create_accessible_response ((jsonLoads reply).getD (speakerFallback reply))
                ("Identified " ++ toString n ++ " speakers in the conversation") ts⟩

/-- View body of identify_speakers, lines 463-522, after the decorators:
falsy or text-less bodies get the 400 envelope (a TypeError from the in
operator on a numeric body reaches the generic except clause instead);
the text field is sanitized, an empty sanitized text gets the other 400
envelope; then generate_content runs (modelOutcome none models a raised
call), the reply is parsed or replaced by the fallback object, and the
success message interpolates len of the speakers_identified entry — a
reply whose entry has no len reaches the generic except clause. -/
def identifySpeakersBody (reqBody : Json) (modelOutcome : Option String) (ts : String) :
    HttpResponse × List GenerationConfig :=
  if ¬ pyTruthy reqBody then
    (create_error_response "Missing required field" "The \x27text\x27 field is required" 400 ts, [])
  else
    match pyNotIn "text" reqBody with
    | none => (analysisFailedIdentify ts, [])
    | some true =>
        (create_error_response "Missing required field" "The \x27text\x27 field is required" 400 ts, [])
    | some false =>
        match pySubscript reqBody "text" with
        | none => (analysisFailedIdentify ts, [])
        | some v =>
            match sanitizeValue v with
            | none => (analysisFailedIdentify ts, [])
            | some text =>
                if text = "" then
                  (create_error_response "Invalid input"
                    "Text cannot be empty after sanitization" 400 ts, [])
                else (identifySpeakersModelPhase modelOutcome ts, [speakerIdentificationConfig])

/-- Full identify-speakers route: rate-limit admission, then the bearer
check, then the view body. -/
def identifySpeakersRoute (rateLimited : Bool) (auth : Option String) (reqBody : Json)
    (modelOutcome : Option String) (ts : String) : HttpResponse × List GenerationConfig :=
  if rateLimited then (rateLimitResponse ts, [])
  else if ¬ bearerOk auth then (unauthorizedResponse, [])
  else identifySpeakersBody reqBody modelOutcome ts

/-- View body of analyze_conversation, lines 528-589.  The required-field
loop tests conversation then speakers with the Python in operator; a
TypeError on a None or numeric body propagates to the generic except
clause, yielding the 500 envelope.  After validation the handler renders
CONVERSATION_ANALYSIS_PROMPT.format(speakers, behavior_categories,
conversation); that template body contains literal JSON-schema brace
blocks, which str.format treats as replacement fields with names such as
a quoted summary key, so the call raises KeyError before
genai.GenerativeModel is ever constructed (behaviour verified against
CPython string formatting).  The generic except clause therefore returns
the 500 envelope on every validated request and the model is never
invoked on this route; the earlier subscript of a non-dict body raises
inside the same try block with the same outcome. -/
def analyzeConversationResp (reqBody : Json) (ts : String) : HttpResponse :=
  match pyNotIn "conversation" reqBody with
  | none => analysisFailedConversation ts
  | some true =>
      create_error_response "Missing required field"
        "The \x27conversation\x27 field is required" 400 ts
  | some false =>
      match pyNotIn "speakers" reqBody with
      | none => analysisFailedConversation ts
      | some true =>
          create_error_response "Missing required field"
            "The \x27speakers\x27 field is required" 400 ts
      | some false => analysisFailedConversation ts

/-- The conversation view body never reaches generate_content, so its
call list is always empty. -/
def analyzeConversationBody (reqBody : Json) (ts : String) :
    HttpResponse × List GenerationConfig :=
  (analyzeConversationResp reqBody ts, [])

/-- Full conversation-analysis route: rate-limit admission, then the
bearer check, then the view body. -/
def analyzeConversationRoute (rateLimited : Bool) (auth : Option String) (reqBody : Json)
    (ts : String) : HttpResponse × List GenerationConfig :=
  if rateLimited then (rateLimitResponse ts, [])
  else if ¬ bearerOk auth then (unauthorizedResponse, [])
  else analyzeConversationBody reqBody ts

/-- get_default_behavior_library, lines 949-957: version, a last_updated
timestamp and an empty category list. -/
def get_default_behavior_library (ts : String) : Json :=
  Json.obj [
    ("version", .str "1.0.0"),
    ("last_updated", .str ts),
    ("categories", .arr [])]

/-- Category-name extraction of get_behavior_categories, line 803: the
comprehension subscripts each element of behaviors.get(categories, []);
a raise inside it is modelled as none (never reached on the empty
default list). -/
def behaviorCategoryNames (ts : String) : Option (List Json) :=
  match pyGet (get_default_behavior_library ts) "categories" (Json.arr []) with
  | some (Json.arr cats) => cats.mapM (fun c => pySubscript c "category")
  | _ => none

/-- GET /api/v1/behaviors/categories, lines 799-806: the route reads the
default library and wraps the category names in a success envelope; an
uncaught comprehension error would surface through the internal_error
handler of lines 982-988. -/
def getBehaviorCategoriesRoute (ts : String) : HttpResponse :=
  match behaviorCategoryNames ts with
  | some cats =>
      ⟨200, create_accessible_response (Json.obj [("categories", Json.arr cats)])
        "Categories loaded" ts⟩
  | none =>
      create_error_response "Internal Server Error"
        "An unexpected error occurred. Please try again later." 500 ts

/-- Hash-derived sync identifier of sync_upload, lines 830-839: the
sha256 hexdigest (abstracted as H) of the 64-truncated user hash
concatenated with the timestamp, truncated to 32 characters. -/
def syncUploadId (H : String → String) (userHash ts : String) : String :=
  pyTruncate (H (pyTruncate userHash 64 ++ ts)) 32

/-- Confirmation code of delete_user_data, lines 910-922: the sha256
hexdigest of deleted_, the 64-truncated user hash, an underscore and the
timestamp, truncated to 16 characters. -/
def deleteConfirmationCode (H : String → String) (userHash ts : String) : String :=
  pyTruncate (H ("deleted_" ++ pyTruncate userHash 64 ++ "_" ++ ts)) 16

/-! The remaining routes of the application, embedded for the
whole-surface envelope and authorization-ordering claims. -/

/-- The 500 envelope of the response-impact except clause, lines
646-652. -/
def analysisFailedImpact (ts : String) : HttpResponse :=
  create_error_response "Analysis failed"
    "Unable to analyze response impact. Please try again." 500 ts

/-- The 500 envelope of the profile except clause, lines 701-707. -/
def analysisFailedProfile (ts : String) : HttpResponse :=
  create_error_response "Analysis failed"
    "Unable to generate profile analysis. Please try again." 500 ts

/-- The 500 envelope of the self-profile except clause, lines 755-761. -/
def analysisFailedSelfProfile (ts : String) : HttpResponse :=
  create_error_response "Analysis failed"
    "Unable to generate self-profile analysis. Please try again." 500 ts

/-- View body of analyze_response_impact, lines 600-652.  The field loop
mirrors analyze_conversation (a TypeError from the in operator on a None
or numeric body reaches the generic except clause); after validation the
handler renders RESPONSE_IMPACT_PROMPT.format(...), whose literal
JSON-schema braces make str.format raise KeyError inside the try block
before genai is reached, so every validated request gets the 500
envelope and the model is never invoked (a non-dict subscript or a
truthy non-string sanitize argument raises earlier in the same try block
with the same outcome). -/
def analyzeResponseImpactResp (reqBody : Json) (ts : String) : HttpResponse :=
  match pyNotIn "conversation" reqBody with
  | none => analysisFailedImpact ts
  | some true =>
      create_error_response "Missing required field"
        "The \x27conversation\x27 field is required" 400 ts
  | some false =>
      match pyNotIn "user_speaker" reqBody with
      | none => analysisFailedImpact ts
      | some true =>
          create_error_response "Missing required field"
            "The \x27user_speaker\x27 field is required" 400 ts
      | some false =>
          match pyNotIn "draft_response" reqBody with
          | none => analysisFailedImpact ts
          | some true =>
              create_error_response "Missing required field"
                "The \x27draft_response\x27 field is required" 400 ts
          | some false => analysisFailedImpact ts

/-- Full response-impact route: rate-limit admission, then the bearer
check, then the view body; no generation config ever reaches the
model. -/
def analyzeResponseImpactRoute (rateLimited : Bool) (auth : Option String) (reqBody : Json)
    (ts : String) : HttpResponse × List GenerationConfig :=
  if rateLimited then (rateLimitResponse ts, [])
  else if ¬ bearerOk auth then (unauthorizedResponse, [])
  else (analyzeResponseImpactResp reqBody ts, [])

/-- View body of analyze_profile, lines 655-707: the in-operator check of
profile_data (TypeError on None or numeric bodies reaches the except
clause), then PROFILE_ANALYSIS_PROMPT.format(...) raises KeyError on the
template braces before genai, so every validated request gets the 500
envelope. -/
def analyzeProfileResp (reqBody : Json) (ts : String) : HttpResponse :=
  match pyNotIn "profile_data" reqBody with
  | none => analysisFailedProfile ts
  | some true =>
      create_error_response "Missing required field"
        "The \x27profile_data\x27 field is required" 400 ts
  | some false => analysisFailedProfile ts

/-- Full profile route. -/
def analyzeProfileRoute (rateLimited : Bool) (auth : Option String) (reqBody : Json)
    (ts : String) : HttpResponse × List GenerationConfig :=
  if rateLimited then (rateLimitResponse ts, [])
  else if ¬ bearerOk auth then (unauthorizedResponse, [])
  else (analyzeProfileResp reqBody ts, [])

/-- View body of analyze_self_profile, lines 710-761: same skeleton as
the profile route with the user_data field and
SELF_PROFILE_PROMPT.format raising on the template braces. -/
def analyzeSelfProfileResp (reqBody : Json) (ts : String) : HttpResponse :=
  match pyNotIn "user_data" reqBody with
  | none => analysisFailedSelfProfile ts
  | some true =>
      create_error_response "Missing required field"
        "The \x27user_data\x27 field is required" 400 ts
  | some false => analysisFailedSelfProfile ts

/-- Full self-profile route. -/
def analyzeSelfProfileRoute (rateLimited : Bool) (auth : Option String) (reqBody : Json)
    (ts : String) : HttpResponse × List GenerationConfig :=
  if rateLimited then (rateLimitResponse ts, [])
  else if ¬ bearerOk auth then (unauthorizedResponse, [])
  else (analyzeSelfProfileResp reqBody ts, [])

/-- Python slicing v[:n] as applied to the user_hash value: defined on
strings (code points) and lists, a TypeError on every other json.loads
value. -/
def pySliceVal (v : Json) (n : Nat) : Option Json :=
  match v with
  | .str s => some (.str (pyTruncate s n))
  | .arr l => some (.arr (l.take n))
  | _ => none

/-- Python f-string conversion of the sliced user_hash: a str embeds
itself verbatim; the str() rendering of any other value is abstracted as
the render parameter (the theorems never depend on its output). -/
def fstr (render : Json → String) : Json → String
  | .str s => s
  | v => render v

/-- The 500 envelope of the sync-upload except clause, lines 846-852. -/
def syncFailedUpload (ts : String) : HttpResponse :=
  create_error_response "Sync failed" "Unable to sync data. Please try again." 500 ts

/-- View body of sync_upload, lines 812-852: the two-field membership
check (TypeError on None or numeric bodies reaches the except clause),
the user_hash subscript and 64-slice (either of which raises on
non-container bodies or unsliceable values, same outcome), then the
success envelope whose sync_id hashes the sliced hash with the
timestamp. -/
def syncUploadBody (H : String → String) (render : Json → String) (reqBody : Json)
    (ts : String) : HttpResponse :=
  match pyNotIn "encrypted_data" reqBody with
  | none => syncFailedUpload ts
  | some true =>
      create_error_response "Missing required fields"
        "Both \x27encrypted_data\x27 and \x27user_hash\x27 are required" 400 ts
  | some false =>
      match pyNotIn "user_hash" reqBody with
      | none => syncFailedUpload ts
      | some true =>
          create_error_response "Missing required fields"
            "Both \x27encrypted_data\x27 and \x27user_hash\x27 are required" 400 ts
      | some false =>
          match pySubscript reqBody "user_hash" with
          | none => syncFailedUpload ts
          | some v =>
              match pySliceVal v 64 with
              | none => syncFailedUpload ts
              | some u =>
                  ⟨200, create_accessible_response (Json.obj [
                    ("sync_id", .str (pyTruncate (H (fstr render u ++ ts)) 32)),
                    ("timestamp", .str ts),
                    ("status", .str "stored")]) "Data synced successfully" ts⟩

/-- Full sync-upload route. -/
def syncUploadRoute (H : String → String) (render : Json → String) (rateLimited : Bool)
    (auth : Option String) (reqBody : Json) (ts : String) : HttpResponse :=
  if rateLimited then rateLimitResponse ts
  else if ¬ bearerOk auth then unauthorizedResponse
  else syncUploadBody H render reqBody ts

/-- View body of sync_download, lines 858-889: the user_hash membership
check (TypeError on None or numeric bodies reaches the except clause,
lines 883-889), then the fixed no-data success envelope. -/
def syncDownloadResp (reqBody : Json) (ts : String) : HttpResponse :=
  match pyNotIn "user_hash" reqBody with
  | none =>
      create_error_response "Sync failed"
        "Unable to retrieve sync data. Please try again." 500 ts
  | some true =>
      create_error_response "Missing required field"
        "The \x27user_hash\x27 field is required" 400 ts
  | some false =>
      ⟨200, create_accessible_response (Json.obj [
        ("encrypted_data", Json.null),
        ("last_sync", Json.null),
        ("status", .str "no_data")]) "No sync data found" ts⟩

/-- Full sync-download route. -/
def syncDownloadRoute (rateLimited : Bool) (auth : Option String) (reqBody : Json)
    (ts : String) : HttpResponse :=
  if rateLimited then rateLimitResponse ts
  else if ¬ bearerOk auth then unauthorizedResponse
  else syncDownloadResp reqBody ts

/-- The 500 envelope of the user-delete except clause, lines 926-933. -/
def deletionFailed (ts : String) : HttpResponse :=
  create_error_response "Deletion failed"
    "Unable to delete data. Please contact support." 500 ts

/-- View body of delete_user_data, lines 895-933: the user_hash
membership check, subscript and 64-slice as in sync_upload, then the
success envelope whose confirmation_code hashes the sliced hash between
the deleted marker and the timestamp. -/
def deleteUserBody (H : String → String) (render : Json → String) (reqBody : Json)
    (ts : String) : HttpResponse :=
  match pyNotIn "user_hash" reqBody with
  | none => deletionFailed ts
  | some true =>
      create_error_response "Missing required field"
        "The \x27user_hash\x27 field is required" 400 ts
  | some false =>
      match pySubscript reqBody "user_hash" with
      | none => deletionFailed ts
      | some v =>
          match pySliceVal v 64 with
          | none => deletionFailed ts
          | some u =>
              ⟨200, create_accessible_response (Json.obj [
                ("deleted", .bool true),
                ("timestamp", .str ts),
                ("confirmation_code",
                  .str (pyTruncate (H ("deleted_" ++ fstr render u ++ "_" ++ ts)) 16))])
                "All your data has been permanently deleted from our servers" ts⟩

/-- Full user-delete route. -/
def deleteUserRoute (H : String → String) (render : Json → String) (rateLimited : Bool)
    (auth : Option String) (reqBody : Json) (ts : String) : HttpResponse :=
  if rateLimited then rateLimitResponse ts
  else if ¬ bearerOk auth then unauthorizedResponse
  else deleteUserBody H render reqBody ts

/-- Outcome of the behavior-library file probe of get_behaviors: the file
is absent (the default library is used), present with parsed content, or
present but raising inside json.load. -/
inductive LibraryFile where
  | absent : LibraryFile
  | content (j : Json) : LibraryFile
  | unreadable : LibraryFile

/-- Python iteration over a json.loads value: lists yield their elements,
strings their characters, dicts their keys; numbers, booleans and None
raise a TypeError (none). -/
def pyIterate : Json → Option (List Json)
  | .arr l => some l
  | .str s => some (s.data.map (fun c => Json.str ⟨[c]⟩))
  | .obj m => some (m.map (fun p => Json.str p.1))
  | _ => none

/-- Inner loop of count_behaviors, lines 944-945: each subcategory
contributes len of its behaviors entry; a get on a non-dict or a len on
an unsized value raises (none). -/
def countSubs : List Json → Option Nat
  | [] => some 0
  | sub :: rest => do
      let b ← pyGet sub "behaviors" (Json.arr [])
      let n ← pyLen b
      let m ← countSubs rest
      pure (n + m)

/-- Outer loop of count_behaviors, lines 943-945. -/
def countCats : List Json → Option Nat
  | [] => some 0
  | cat :: rest => do
      let subsVal ← pyGet cat "subcategories" (Json.arr [])
      let subs ← pyIterate subsVal
      let n ← countSubs subs
      let m ← countCats rest
      pure (n + m)

/-- count_behaviors, lines 940-946: total behaviors under
library.get(categories, []). -/
def count_behaviors (library : Json) : Option Nat := do
  let catsVal ← pyGet library "categories" (Json.arr [])
  let cats ← pyIterate catsVal
  countCats cats

/-- The 500 envelope of the get_behaviors except clause, lines
790-796. -/
def behaviorsFailed (ts : String) : HttpResponse :=
  create_error_response "Failed to load behaviors"
    "Unable to retrieve the behavior library." 500 ts

/-- GET /api/v1/behaviors, lines 764-796: public but rate-limited; the
library comes from the data file when present, else from the default
library; a load or count failure reaches the except clause. -/
def getBehaviorsRoute (rateLimited : Bool) (f : LibraryFile) (ts : String) : HttpResponse :=
  if rateLimited then rateLimitResponse ts
  else
    match f with
    | .unreadable => behaviorsFailed ts
    | .absent =>
        match count_behaviors (get_default_behavior_library ts) with
        | none => behaviorsFailed ts
        | some n =>
            ⟨200, create_accessible_response (get_default_behavior_library ts)
              ("Loaded " ++ toString n ++ " behaviors and traits") ts⟩
    | .content j =>
        match count_behaviors j with
        | none => behaviorsFailed ts
        | some n =>
            ⟨200, create_accessible_response j
              ("Loaded " ++ toString n ++ " behaviors and traits") ts⟩

/-- GET /health, lines 449-457: a fixed liveness payload that is not an
envelope and has no success field. -/
def healthRoute (ts : String) : HttpResponse :=
  ⟨200, Json.obj [
    ("status", .str "healthy"),
    ("service", .str "text-decoder-api"),
    ("version", .str "1.0.0-mvp"),
    ("timestamp", .str ts)]⟩

/-- The 404 errorhandler, lines 964-970. -/
def notFoundResponse (ts : String) : HttpResponse :=
  create_error_response "Not Found" "The requested endpoint does not exist" 404 ts

/-- A body is exactly one of the two canonical envelope shapes of the
specification. -/
def envelopeShaped (j : Json) : Prop :=
  (isSuccessEnvelope j = true ∧ isErrorEnvelope j = false) ∨
  (isErrorEnvelope j = true ∧ isSuccessEnvelope j = false)

/-! Helper lemmas. -/

/-- A bearer-formatted header passes the decorator check. -/
lemma bearerOk_bearer (tok : String) : bearerOk (some ("Bearer " ++ tok)) = true := by
  have h : ("Bearer " ++ tok).data = "Bearer ".data ++ tok.data :=
    String.data_append "Bearer " tok
  simp only [bearerOk, h, List.isPrefixOf_iff_prefix]
  exact List.prefix_append _ _

/-- Entity escaping introduces no angle brackets. -/
lemma escapeChar_no_angle (c : Char) : '<' ∉ escapeChar c ∧ '>' ∉ escapeChar c := by
  unfold escapeChar
  split_ifs with h1 h2 h3
  · exact ⟨by decide, by decide⟩
  · exact ⟨by decide, by decide⟩
  · exact ⟨by decide, by decide⟩
  · constructor <;> simp <;> intro hc
    · exact h2 hc.symm
    · exact h3 hc.symm

/-- Entity escaping is the identity on characters that need no escape. -/
lemma escapeChar_id (c : Char) (h1 : c ≠ '&') (h2 : c ≠ '<') (h3 : c ≠ '>') :
    escapeChar c = [c] := by
  unfold escapeChar
  simp [h1, h2, h3]

/-- The stripped and escaped output never contains an angle bracket. -/
lemma stripAndEscape_no_angle :
    ∀ (fuel : Nat) (l : List Char),
      '<' ∉ stripAndEscape fuel l ∧ '>' ∉ stripAndEscape fuel l := by
  intro fuel
  induction fuel with
  | zero => intro l; simp [stripAndEscape]
  | succ n ih =>
    intro l
    match l with
    | [] => simp [stripAndEscape]
    | c :: rest =>
      by_cases hc : c = '<'
      · subst hc
        cases rest with
        | nil =>
            simpa [stripAndEscape] using escapeChar_no_angle '<'
        | cons c2 rest2 =>
            by_cases ht : isTagOpenChar c2
            · simpa [stripAndEscape, ht] using ih (dropTagRest (rest2.length + 1) rest2)
            · have he := escapeChar_no_angle '<'
              have hr := ih (c2 :: rest2)
              simp [stripAndEscape, ht, List.mem_append]
              exact ⟨⟨he.1, hr.1⟩, he.2, hr.2⟩
      · have he := escapeChar_no_angle c
        have hr := ih rest
        simp [stripAndEscape, hc, List.mem_append]
        exact ⟨⟨he.1, hr.1⟩, he.2, hr.2⟩

/-- Stream normalization is the identity on inputs without carriage
returns and NULs. -/
lemma normalizeStream_id :
    ∀ (l : List Char), (∀ c ∈ l, c ≠ '\r' ∧ c ≠ Char.ofNat 0) →
      normalizeStream l = l := by
  intro l
  unfold normalizeStream
  induction l with
  | nil => intro _; rfl
  | cons c rest ih =>
    intro h
    have hc := h c (List.mem_cons_self c rest)
    have hrest := fun c2 hmem => h c2 (List.mem_cons_of_mem c hmem)
    have hnc : normChar c = c := by
      unfold normChar
      rw [if_neg hc.1, if_neg hc.2]
    unfold normalizeAux
    rw [if_neg (fun hand => Bool.false_ne_true hand.1), if_neg hc.1, hnc, ih hrest]

/-- On input free of markup-significant characters, with enough fuel, the
cleaner is the identity. -/
lemma stripAndEscape_clean :
    ∀ (fuel : Nat) (l : List Char), l.length ≤ fuel →
      (∀ c ∈ l, c ≠ '<' ∧ c ≠ '>' ∧ c ≠ '&') → stripAndEscape fuel l = l := by
  intro fuel
  induction fuel with
  | zero =>
    intro l hl _
    have : l = [] := List.length_eq_zero.mp (Nat.le_zero.mp hl)
    subst this
    rfl
  | succ n ih =>
    intro l hl hc
    match l with
    | [] => rfl
    | c :: rest =>
      have h1 := hc c (List.mem_cons_self c rest)
      have hlt : rest.length ≤ n := Nat.le_of_succ_le_succ (by simpa using hl)
      have hrest : ∀ c2 ∈ rest, c2 ≠ '<' ∧ c2 ≠ '>' ∧ c2 ≠ '&' :=
        fun c2 hmem => hc c2 (List.mem_cons_of_mem c hmem)
      have hesc : escapeChar c = [c] := escapeChar_id c h1.2.2 h1.1 h1.2.1
      simp [stripAndEscape, h1.1, hesc, ih rest hlt hrest]

/-! Claims. -/

/-- C3 counterexample: a rate-limited request with no Authorization
header on the identify-speakers route is answered 429, not 401 — the
rate-limiting admission runs before the authorization check, refuting
the claimed ordering at this concrete request. -/
theorem c3_counterexample :
    bearerOk none = false ∧
    (identifySpeakersRoute true none (Json.obj [("text", Json.str "hi")]) none "T").1.status
      = 429 ∧
    (identifySpeakersRoute true none (Json.obj [("text", Json.str "hi")]) none "T").1.status
      ≠ 401 :=
  ⟨rfl, rfl, by decide⟩

/-- C3 amended: on every auth-required route (the five analysis routes,
sync upload and download, and user delete), a request that is not
rejected by the rate limiter and lacks a bearer-shaped Authorization
header is answered with the 401 response without invoking the model and
without reading the body or the model outcome (the response is identical
for any two bodies and model outcomes); the rate-limit check, however,
runs before the authorization check. -/
theorem c3_amended (auth : Option String) (b1 b2 : Json) (o1 o2 : Option String)
    (H : String → String) (render : Json → String) (ts : String)
    (h : bearerOk auth = false) :
    ((identifySpeakersRoute false auth b1 o1 ts).1 = unauthorizedResponse ∧
      (identifySpeakersRoute false auth b1 o1 ts).2 = [] ∧
      identifySpeakersRoute false auth b1 o1 ts
        = identifySpeakersRoute false auth b2 o2 ts) ∧
    ((analyzeConversationRoute false auth b1 ts).1 = unauthorizedResponse ∧
      (analyzeConversationRoute false auth b1 ts).2 = [] ∧
      analyzeConversationRoute false auth b1 ts = analyzeConversationRoute false auth b2 ts) ∧
    ((analyzeResponseImpactRoute false auth b1 ts).1 = unauthorizedResponse ∧
      (analyzeResponseImpactRoute false auth b1 ts).2 = [] ∧
      analyzeResponseImpactRoute false auth b1 ts
        = analyzeResponseImpactRoute false auth b2 ts) ∧
    ((analyzeProfileRoute false auth b1 ts).1 = unauthorizedResponse ∧
      (analyzeProfileRoute false auth b1 ts).2 = [] ∧
      analyzeProfileRoute false auth b1 ts = analyzeProfileRoute false auth b2 ts) ∧
    ((analyzeSelfProfileRoute false auth b1 ts).1 = unauthorizedResponse ∧
      (analyzeSelfProfileRoute false auth b1 ts).2 = [] ∧
      analyzeSelfProfileRoute false auth b1 ts = analyzeSelfProfileRoute false auth b2 ts) ∧
    (syncUploadRoute H render false auth b1 ts = unauthorizedResponse ∧
      syncUploadRoute H render false auth b1 ts = syncUploadRoute H render false auth b2 ts) ∧
    (syncDownloadRoute false auth b1 ts = unauthorizedResponse ∧
      syncDownloadRoute false auth b1 ts = syncDownloadRoute false auth b2 ts) ∧
    (deleteUserRoute H render false auth b1 ts = unauthorizedResponse ∧
      deleteUserRoute H render false auth b1 ts = deleteUserRoute H render false auth b2 ts) := by
  simp [identifySpeakersRoute, analyzeConversationRoute, analyzeResponseImpactRoute,
    analyzeProfileRoute, analyzeSelfProfileRoute, syncUploadRoute, syncDownloadRoute,
    deleteUserRoute, h]

/-- C3 witness: the amended statement instantiated at a concrete
wrong-scheme header, two different bodies and outcomes and concrete
digest and rendering functions. -/
theorem c3_witness :
    bearerOk (some "Token x") = false ∧
    (identifySpeakersRoute false (some "Token x") (Json.obj []) none "T").1
      = unauthorizedResponse ∧
    identifySpeakersRoute false (some "Token x") (Json.obj []) none "T"
      = identifySpeakersRoute false (some "Token x") Json.null (some "r") "T" ∧
    deleteUserRoute (fun s => s) (fun _ => "") false (some "Token x") (Json.obj []) "T"
      = unauthorizedResponse := by
  have h := c3_amended (some "Token x") (Json.obj []) Json.null none (some "r")
    (fun s => s) (fun _ => "") "T" (by decide)
  exact ⟨by decide, h.1.1, h.1.2.2, h.2.2.2.2.2.2.2.1⟩

/-- C6: evaluation at the failing input — a JSON body null on the
authorized conversation-analysis route makes the in operator raise a
TypeError that the generic except clause turns into the 500
Analysis-failed envelope, not the 400 the claim requires; the model is
indeed never invoked. -/
theorem c6_null_body_500 :
    (analyzeConversationRoute false (some "Bearer t") Json.null "T").1.status = 500 ∧
    respField (analyzeConversationRoute false (some "Bearer t") Json.null "T").1 "success"
      = some (Json.bool false) ∧
    respField (analyzeConversationRoute false (some "Bearer t") Json.null "T").1 "error"
      = some (Json.str "Analysis failed") ∧
    (analyzeConversationRoute false (some "Bearer t") Json.null "T").2 = [] :=
  ⟨rfl, rfl, rfl, rfl⟩

/-- C7 counterexample: the GenerationConfig the identify-speakers route
passes to the model carries no max_output_tokens at all, so its maximum
output size does not lie between 4096 and 8192 tokens; the route does
invoke the model with exactly this configuration on a validated
request. -/
theorem c7_counterexample :
    speakerIdentificationConfig.maxOutputTokens = none ∧
    (identifySpeakersRoute false (some "Bearer t") (Json.obj [("text", Json.str "hi")])
        (some "reply") "T").2 = [speakerIdentificationConfig] :=
  ⟨rfl, rfl⟩

/-- C7 amended: every analysis route has a fixed, caller-independent
GenerationConfig with temperature in the interval from 0.3 to 0.5 and
the structured-output hint requested; the conversation, response-impact,
profile and self-profile configurations set a maximum output size of
8192 or 4096 tokens, while the identify-speakers configuration sets no
maximum at all; the identify-speakers route passes only its fixed
configuration to the model, and the conversation route never reaches a
model invocation. -/
theorem c7_amended :
    (speakerIdentificationConfig.temperature = 3/10 ∧
      speakerIdentificationConfig.responseMimeType = "application/json" ∧
      speakerIdentificationConfig.maxOutputTokens = none) ∧
    (conversationAnalysisConfig.temperature = 2/5 ∧
      conversationAnalysisConfig.responseMimeType = "application/json" ∧
      conversationAnalysisConfig.maxOutputTokens = some 8192) ∧
    (responseImpactConfig.temperature = 1/2 ∧
      responseImpactConfig.responseMimeType = "application/json" ∧
      responseImpactConfig.maxOutputTokens = some 4096) ∧
    (profileAnalysisConfig.temperature = 2/5 ∧
      profileAnalysisConfig.responseMimeType = "application/json" ∧
      profileAnalysisConfig.maxOutputTokens = some 8192) ∧
    (selfProfileConfig.temperature = 2/5 ∧
      selfProfileConfig.responseMimeType = "application/json" ∧
      selfProfileConfig.maxOutputTokens = some 8192) ∧
    (∀ rl auth body o ts,
      (identifySpeakersRoute rl auth body o ts).2 = [] ∨
      (identifySpeakersRoute rl auth body o ts).2 = [speakerIdentificationConfig]) ∧
    (∀ rl auth body ts, (analyzeConversationRoute rl auth body ts).2 = []) := by
  refine ⟨⟨by norm_num [speakerIdentificationConfig], rfl, rfl⟩,
    ⟨by norm_num [conversationAnalysisConfig], rfl, rfl⟩,
    ⟨by norm_num [responseImpactConfig], rfl, rfl⟩,
    ⟨by norm_num [profileAnalysisConfig], rfl, rfl⟩,
    ⟨by norm_num [selfProfileConfig], rfl, rfl⟩, ?_, ?_⟩
  · intro rl auth body o ts
    unfold identifySpeakersRoute identifySpeakersBody
    repeat' split
    all_goals first | exact Or.inl rfl | exact Or.inr rfl
  · intro rl auth body ts
    unfold analyzeConversationRoute analyzeConversationBody
    repeat' split
    all_goals rfl

/-- C8: the sync-upload identifier and the delete confirmation code are
computed only from the first 64 characters of the caller-supplied
user_hash — for any hexdigest function, two hashes agreeing on their
first 64 characters handled at the same timestamp yield identical
identifiers. -/
theorem c8_hash_truncation (H : String → String) (u1 u2 ts : String)
    (h : pyTruncate u1 64 = pyTruncate u2 64) :
    syncUploadId H u1 ts = syncUploadId H u2 ts ∧
    deleteConfirmationCode H u1 ts = deleteConfirmationCode H u2 ts := by
  unfold syncUploadId deleteConfirmationCode
  rw [h]
  exact ⟨rfl, rfl⟩

/-- C8 witness: the scenario input, a user_hash of 200 letters a against
one of 64 letters a, under a concrete digest function. -/
theorem c8_witness :
    pyTruncate ⟨List.replicate 200 'a'⟩ 64 = pyTruncate ⟨List.replicate 64 'a'⟩ 64 ∧
    syncUploadId (fun s => s) ⟨List.replicate 200 'a'⟩ "T"
      = syncUploadId (fun s => s) ⟨List.replicate 64 'a'⟩ "T" ∧
    deleteConfirmationCode (fun s => s) ⟨List.replicate 200 'a'⟩ "T"
      = deleteConfirmationCode (fun s => s) ⟨List.replicate 64 'a'⟩ "T" := by
  have h : pyTruncate (⟨List.replicate 200 'a'⟩ : String) 64
      = pyTruncate (⟨List.replicate 64 'a'⟩ : String) 64 := by decide
  have h2 := c8_hash_truncation (fun s => s) ⟨List.replicate 200 'a'⟩
    ⟨List.replicate 64 'a'⟩ "T" h
  exact ⟨h, h2.1, h2.2⟩

/-- C9: there is a model reply that is syntactically valid JSON on which
the identify-speakers handler nevertheless answers with the 500
Analysis-failed error envelope — the success message applies len to the
speakers_identified entry, and a numeric entry has no len, so the raised
TypeError lands in the generic except clause. -/
theorem c9_valid_json_500 :
    ∃ reply : String, (jsonLoads reply).isSome = true ∧
      (identifySpeakersRoute false (some "Bearer t") (Json.obj [("text", Json.str "hi")])
          (some reply) "T").1.status = 500 ∧
      respField (identifySpeakersRoute false (some "Bearer t")
          (Json.obj [("text", Json.str "hi")]) (some reply) "T").1 "success"
        = some (Json.bool false) ∧
      respField (identifySpeakersRoute false (some "Bearer t")
          (Json.obj [("text", Json.str "hi")]) (some reply) "T").1 "error"
        = some (Json.str "Analysis failed") :=
  ⟨"\x7b\"speakers_identified\": 5\x7d", rfl, rfl, rfl, rfl⟩

/-- C10: two calls of the behavior-categories route with no intervening
state change — at any two timestamps — return identical category lists,
namely the empty list of the default library. -/
theorem c10_categories_idempotent (ts1 ts2 : String) :
    respDataField (getBehaviorCategoriesRoute ts1) "categories" =
      respDataField (getBehaviorCategoriesRoute ts2) "categories" ∧
    respDataField (getBehaviorCategoriesRoute ts1) "categories" = some (Json.arr []) ∧
    (getBehaviorCategoriesRoute ts1).status = 200 :=
  ⟨rfl, rfl, rfl⟩

/-- C10 witness: the idempotence statement at two concrete distinct
timestamps. -/
theorem c10_witness :
    respDataField (getBehaviorCategoriesRoute "T1") "categories" =
      respDataField (getBehaviorCategoriesRoute "T2") "categories" ∧
    respDataField (getBehaviorCategoriesRoute "T1") "categories" = some (Json.arr []) ∧
    (getBehaviorCategoriesRoute "T1").status = 200 :=
  c10_categories_idempotent "T1" "T2"

/-- The model phase of identify_speakers always answers with one of the
two envelope shapes. -/
lemma modelPhase_shape (o : Option String) (ts : String) :
    (isSuccessEnvelope (identifySpeakersModelPhase o ts).body = true ∧
      isErrorEnvelope (identifySpeakersModelPhase o ts).body = false) ∨
    (isErrorEnvelope (identifySpeakersModelPhase o ts).body = true ∧
      isSuccessEnvelope (identifySpeakersModelPhase o ts).body = false) := by
  unfold identifySpeakersModelPhase
  repeat' split
  all_goals first | exact Or.inl ⟨rfl, rfl⟩ | exact Or.inr ⟨rfl, rfl⟩

/-- The identify-speakers view body always answers with one of the two
envelope shapes. -/
lemma identifySpeakersBody_shape (body : Json) (o : Option String) (ts : String) :
    (isSuccessEnvelope (identifySpeakersBody body o ts).1.body = true ∧
      isErrorEnvelope (identifySpeakersBody body o ts).1.body = false) ∨
    (isErrorEnvelope (identifySpeakersBody body o ts).1.body = true ∧
      isSuccessEnvelope (identifySpeakersBody body o ts).1.body = false) := by
  unfold identifySpeakersBody
  repeat' split
  all_goals first | exact Or.inr ⟨rfl, rfl⟩ | exact modelPhase_shape o ts

/-- The conversation view body answers with an envelope shape. -/
lemma conversationResp_shape (b : Json) (ts : String) :
    envelopeShaped (analyzeConversationResp b ts).body := by
  unfold envelopeShaped analyzeConversationResp
  repeat' split
  all_goals first | exact Or.inl ⟨rfl, rfl⟩ | exact Or.inr ⟨rfl, rfl⟩

/-- The response-impact view body answers with an envelope shape. -/
lemma impactResp_shape (b : Json) (ts : String) :
    envelopeShaped (analyzeResponseImpactResp b ts).body := by
  unfold envelopeShaped analyzeResponseImpactResp
  repeat' split
  all_goals first | exact Or.inl ⟨rfl, rfl⟩ | exact Or.inr ⟨rfl, rfl⟩

/-- The profile view body answers with an envelope shape. -/
lemma profileResp_shape (b : Json) (ts : String) :
    envelopeShaped (analyzeProfileResp b ts).body := by
  unfold envelopeShaped analyzeProfileResp
  repeat' split
  all_goals first | exact Or.inl ⟨rfl, rfl⟩ | exact Or.inr ⟨rfl, rfl⟩

/-- The self-profile view body answers with an envelope shape. -/
lemma selfProfileResp_shape (b : Json) (ts : String) :
    envelopeShaped (analyzeSelfProfileResp b ts).body := by
  unfold envelopeShaped analyzeSelfProfileResp
  repeat' split
  all_goals first | exact Or.inl ⟨rfl, rfl⟩ | exact Or.inr ⟨rfl, rfl⟩

/-- The sync-upload view body answers with an envelope shape. -/
lemma syncUploadBody_shape (H : String → String) (render : Json → String) (b : Json)
    (ts : String) : envelopeShaped (syncUploadBody H render b ts).body := by
  unfold envelopeShaped syncUploadBody
  repeat' split
  all_goals first | exact Or.inl ⟨rfl, rfl⟩ | exact Or.inr ⟨rfl, rfl⟩

/-- The sync-download view body answers with an envelope shape. -/
lemma syncDownloadResp_shape (b : Json) (ts : String) :
    envelopeShaped (syncDownloadResp b ts).body := by
  unfold envelopeShaped syncDownloadResp
  repeat' split
  all_goals first | exact Or.inl ⟨rfl, rfl⟩ | exact Or.inr ⟨rfl, rfl⟩

/-- The user-delete view body answers with an envelope shape. -/
lemma deleteUserBody_shape (H : String → String) (render : Json → String) (b : Json)
    (ts : String) : envelopeShaped (deleteUserBody H render b ts).body := by
  unfold envelopeShaped deleteUserBody
  repeat' split
  all_goals first | exact Or.inl ⟨rfl, rfl⟩ | exact Or.inr ⟨rfl, rfl⟩

/-- The behavior-library route answers with an envelope shape. -/
lemma getBehaviorsRoute_shape (rl : Bool) (f : LibraryFile) (ts : String) :
    envelopeShaped (getBehaviorsRoute rl f ts).body := by
  unfold envelopeShaped getBehaviorsRoute
  repeat' split
  all_goals first | exact Or.inl ⟨rfl, rfl⟩ | exact Or.inr ⟨rfl, rfl⟩

/-- The behavior-categories route answers with an envelope shape. -/
lemma categoriesRoute_shape (ts : String) :
    envelopeShaped (getBehaviorCategoriesRoute ts).body := by
  unfold envelopeShaped getBehaviorCategoriesRoute
  repeat' split
  all_goals first | exact Or.inl ⟨rfl, rfl⟩ | exact Or.inr ⟨rfl, rfl⟩

/-- C1 counterexample: the 401 response produced by the authorization
check on the identify-speakers route is neither of the two canonical
envelope shapes, and its success field is absent, refuting the claim at
the concrete request with no Authorization header. -/
theorem c1_counterexample :
    (identifySpeakersRoute false none (Json.obj [("text", Json.str "hi")]) none "T").1.status
      = 401 ∧
    hasSuccessField
      (identifySpeakersRoute false none (Json.obj [("text", Json.str "hi")]) none "T").1.body
      = false ∧
    isSuccessEnvelope
      (identifySpeakersRoute false none (Json.obj [("text", Json.str "hi")]) none "T").1.body
      = false ∧
    isErrorEnvelope
      (identifySpeakersRoute false none (Json.obj [("text", Json.str "hi")]) none "T").1.body
      = false :=
  ⟨rfl, rfl, rfl, rfl⟩

/-- C1 amended: every HTTP response from every route is exactly one of
the two canonical envelope shapes with the success field present, with
exactly two exceptions — the 401 produced by the authorization check,
whose body is a plain error/message object with no success field, and
the fixed health payload, which also lacks success.  Stated across the
whole surface: the five analysis routes and the three sync and delete
routes under any admission outcome that reaches their view bodies or the
rate limiter, the two public behavior-library routes, and the 404
handler; plus the two exceptional shapes. -/
theorem c1_amended :
    (∀ (rl : Bool) (auth : Option String) (body : Json) (o : Option String) (ts : String),
      rl = true ∨ bearerOk auth = true →
        envelopeShaped (identifySpeakersRoute rl auth body o ts).1.body ∧
        envelopeShaped (analyzeConversationRoute rl auth body ts).1.body ∧
        envelopeShaped (analyzeResponseImpactRoute rl auth body ts).1.body ∧
        envelopeShaped (analyzeProfileRoute rl auth body ts).1.body ∧
        envelopeShaped (analyzeSelfProfileRoute rl auth body ts).1.body) ∧
    (∀ (H : String → String) (render : Json → String) (rl : Bool) (auth : Option String)
        (body : Json) (ts : String),
      rl = true ∨ bearerOk auth = true →
        envelopeShaped (syncUploadRoute H render rl auth body ts).body ∧
        envelopeShaped (syncDownloadRoute rl auth body ts).body ∧
        envelopeShaped (deleteUserRoute H render rl auth body ts).body) ∧
    (∀ (rl : Bool) (f : LibraryFile) (ts : String),
      envelopeShaped (getBehaviorsRoute rl f ts).body ∧
      envelopeShaped (getBehaviorCategoriesRoute ts).body ∧
      envelopeShaped (notFoundResponse ts).body) ∧
    (∀ (auth : Option String) (body : Json) (o : Option String) (ts : String),
      bearerOk auth = false →
        (identifySpeakersRoute false auth body o ts).1 = unauthorizedResponse ∧
        hasSuccessField (identifySpeakersRoute false auth body o ts).1.body = false) ∧
    (∀ ts : String, hasSuccessField (healthRoute ts).body = false) := by
  refine ⟨?_, ?_, ?_, ?_, ?_⟩
  · intro rl auth body o ts h
    cases rl with
    | false =>
        rcases h with h | h
        · exact absurd h (by decide)
        · refine ⟨?_, ?_, ?_, ?_, ?_⟩
          · have heq : identifySpeakersRoute false auth body o ts
                = identifySpeakersBody body o ts := by
              simp [identifySpeakersRoute, h]
            rw [heq]
            exact identifySpeakersBody_shape body o ts
          · have heq : analyzeConversationRoute false auth body ts
                = analyzeConversationBody body ts := by
              simp [analyzeConversationRoute, h]
            rw [heq]
            exact conversationResp_shape body ts
          · have heq : analyzeResponseImpactRoute false auth body ts
                = (analyzeResponseImpactResp body ts, []) := by
              simp [analyzeResponseImpactRoute, h]
            rw [heq]
            exact impactResp_shape body ts
          · have heq : analyzeProfileRoute false auth body ts
                = (analyzeProfileResp body ts, []) := by
              simp [analyzeProfileRoute, h]
            rw [heq]
            exact profileResp_shape body ts
          · have heq : analyzeSelfProfileRoute false auth body ts
                = (analyzeSelfProfileResp body ts, []) := by
              simp [analyzeSelfProfileRoute, h]
            rw [heq]
            exact selfProfileResp_shape body ts
    | true =>
        exact ⟨Or.inr ⟨rfl, rfl⟩, Or.inr ⟨rfl, rfl⟩, Or.inr ⟨rfl, rfl⟩,
          Or.inr ⟨rfl, rfl⟩, Or.inr ⟨rfl, rfl⟩⟩
  · intro H render rl auth body ts h
    cases rl with
    | false =>
        rcases h with h | h
        · exact absurd h (by decide)
        · refine ⟨?_, ?_, ?_⟩
          · have heq : syncUploadRoute H render false auth body ts
                = syncUploadBody H render body ts := by
              simp [syncUploadRoute, h]
            rw [heq]
            exact syncUploadBody_shape H render body ts
          · have heq : syncDownloadRoute false auth body ts = syncDownloadResp body ts := by
              simp [syncDownloadRoute, h]
            rw [heq]
            exact syncDownloadResp_shape body ts
          · have heq : deleteUserRoute H render false auth body ts
                = deleteUserBody H render body ts := by
              simp [deleteUserRoute, h]
            rw [heq]
            exact deleteUserBody_shape H render body ts
    | true => exact ⟨Or.inr ⟨rfl, rfl⟩, Or.inr ⟨rfl, rfl⟩, Or.inr ⟨rfl, rfl⟩⟩
  · intro rl f ts
    exact ⟨getBehaviorsRoute_shape rl f ts, categoriesRoute_shape ts, Or.inr ⟨rfl, rfl⟩⟩
  · intro auth body o ts h
    have heq : identifySpeakersRoute false auth body o ts = (unauthorizedResponse, []) := by
      simp [identifySpeakersRoute, h]
    rw [heq]
    exact ⟨rfl, rfl⟩
  · intro ts
    rfl

/-- C1 witness: the amended shape statement instantiated at concrete
authorized requests on an analysis route and a delete route. -/
theorem c1_witness :
    envelopeShaped
      (identifySpeakersRoute false (some "Bearer t") (Json.obj []) none "T").1.body ∧
    envelopeShaped
      (deleteUserRoute (fun s => s) (fun _ => "") false (some "Bearer t")
        (Json.obj []) "T").body := by
  have h1 := c1_amended.1 false (some "Bearer t") (Json.obj []) none "T" (Or.inr (by decide))
  have h2 := c1_amended.2.1 (fun s => s) (fun _ => "") false (some "Bearer t")
    (Json.obj []) "T" (Or.inr (by decide))
  exact ⟨h1.1, h2.2.2⟩

/-- Identify-speakers response to an authorized, not rate-limited request
whose body holds the text s, when the external model answers reply. -/
def identifyResp (tok s reply ts : String) : HttpResponse :=
  (identifySpeakersRoute false (some ("Bearer " ++ tok)) (Json.obj [("text", Json.str s)])
    (some reply) ts).1

/-- On an unparsable model reply, the identify-speakers response is the
200 success envelope around the fallback object. -/
lemma identifyResp_fallback (tok s reply ts : String) (hs : sanitize_input s ≠ "")
    (hr : jsonLoads reply = none) :
    identifyResp tok s reply ts =
      ⟨200, create_accessible_response (speakerFallback reply)
        "Identified 2 speakers in the conversation" ts⟩ := by
  have h1 : identifySpeakersRoute false (some ("Bearer " ++ tok))
      (Json.obj [("text", Json.str s)]) (some reply) ts
      = identifySpeakersBody (Json.obj [("text", Json.str s)]) (some reply) ts := by
    simp [identifySpeakersRoute, bearerOk_bearer tok]
  have h2 : identifySpeakersBody (Json.obj [("text", Json.str s)]) (some reply) ts
      = (identifySpeakersModelPhase (some reply) ts, [speakerIdentificationConfig]) := by
    show (if sanitize_input s = "" then
        (create_error_response "Invalid input"
          "Text cannot be empty after sanitization" 400 ts, ([] : List GenerationConfig))
      else (identifySpeakersModelPhase (some reply) ts, [speakerIdentificationConfig])) = _
    rw [if_neg hs]
  have h3 : identifySpeakersModelPhase (some reply) ts
      = ⟨200, create_accessible_response (speakerFallback reply)
          "Identified 2 speakers in the conversation" ts⟩ := by
    unfold identifySpeakersModelPhase
    simp only [hr, Option.getD_none]
    rfl
  unfold identifyResp
  rw [h1, h2]
  exact h3

/-- C2: an identify-speakers request that passes admission (bearer
header, not rate-limited) and validation (its text field survives
sanitization) and whose model call succeeds with a reply that is not
syntactically valid JSON is still answered 200 with a success envelope
whose data carries the documented fallback field set, the raw reply
sitting under raw_response. -/
theorem c2_invalid_reply_fallback (tok s reply ts : String)
    (hs : sanitize_input s ≠ "") (hr : jsonLoads reply = none) :
    (identifyResp tok s reply ts).status = 200 ∧
    respField (identifyResp tok s reply ts) "success" = some (Json.bool true) ∧
    respDataField (identifyResp tok s reply ts) "raw_response" = some (Json.str reply) ∧
    respDataField (identifyResp tok s reply ts) "analysis_notes" = some (Json.str reply) ∧
    respDataField (identifyResp tok s reply ts) "messages" = some (Json.arr []) := by
  rw [identifyResp_fallback tok s reply ts hs hr]
  exact ⟨rfl, rfl, rfl, rfl, rfl⟩

/-- C2 witness: the specification scenario — the model answers the
literal text not json — discharged concretely. -/
theorem c2_witness :
    sanitize_input "Alice: Hi" ≠ "" ∧ jsonLoads "not json" = none ∧
    ((identifyResp "token" "Alice: Hi" "not json" "T").status = 200 ∧
      respField (identifyResp "token" "Alice: Hi" "not json" "T") "success"
        = some (Json.bool true) ∧
      respDataField (identifyResp "token" "Alice: Hi" "not json" "T") "raw_response"
        = some (Json.str "not json") ∧
      respDataField (identifyResp "token" "Alice: Hi" "not json" "T") "analysis_notes"
        = some (Json.str "not json") ∧
      respDataField (identifyResp "token" "Alice: Hi" "not json" "T") "messages"
        = some (Json.arr [])) :=
  ⟨by decide, rfl, c2_invalid_reply_fallback "token" "Alice: Hi" "not json" "T" (by decide) rfl⟩

/-- C4 counterexample: at a concrete unparsable model reply the fallback
speaker list is the two-element placeholder list, not the empty list the
claim states. -/
theorem c4_counterexample :
    respDataField (identifyResp "t" "hi" "oops" "T") "speakers_identified"
      = some (Json.arr [Json.str "Speaker 1", Json.str "Speaker 2"]) ∧
    respDataField (identifyResp "t" "hi" "oops" "T") "speakers_identified"
      ≠ some (Json.arr []) := by
  have hv : respDataField (identifyResp "t" "hi" "oops" "T") "speakers_identified"
      = some (Json.arr [Json.str "Speaker 1", Json.str "Speaker 2"]) := rfl
  exact ⟨hv, by rw [hv]; simp⟩

/-- C4 amended: when the model reply fails JSON parsing, the
identify-speakers fallback supplies the fixed placeholder speaker list
Speaker 1 and Speaker 2, the neutral confidence value 0.5, and the raw
reply text. -/
theorem c4_amended (tok s reply ts : String)
    (hs : sanitize_input s ≠ "") (hr : jsonLoads reply = none) :
    respDataField (identifyResp tok s reply ts) "speakers_identified"
      = some (Json.arr [Json.str "Speaker 1", Json.str "Speaker 2"]) ∧
    respDataField (identifyResp tok s reply ts) "confidence_overall"
      = some (Json.num "0.5") ∧
    respDataField (identifyResp tok s reply ts) "raw_response" = some (Json.str reply) := by
  rw [identifyResp_fallback tok s reply ts hs hr]
  exact ⟨rfl, rfl, rfl⟩

/-- C4 witness: the amended fallback statement at a concrete unparsable
reply. -/
theorem c4_witness :
    sanitize_input "Bob: yo" ≠ "" ∧ jsonLoads "###" = none ∧
    (respDataField (identifyResp "t" "Bob: yo" "###" "T") "speakers_identified"
        = some (Json.arr [Json.str "Speaker 1", Json.str "Speaker 2"]) ∧
      respDataField (identifyResp "t" "Bob: yo" "###" "T") "confidence_overall"
        = some (Json.num "0.5") ∧
      respDataField (identifyResp "t" "Bob: yo" "###" "T") "raw_response"
        = some (Json.str "###")) :=
  ⟨by decide, rfl, c4_amended "t" "Bob: yo" "###" "T" (by decide) rfl⟩

/-- C5 counterexample: on the markup-free input a-ampersand-b the
sanitizer entity-escapes the ampersand, so the non-markup content is not
preserved byte-for-byte as the claim states. -/
theorem c5_counterexample :
    sanitize_input "a & b" = "a &amp; b" ∧ sanitize_input "a & b" ≠ "a & b" :=
  ⟨by decide, by decide⟩

/-- C5 amended: sanitize output never exceeds 50000 code points and
contains no angle bracket (hence no markup tag); empty or absent input
yields empty output; and input text containing none of the
escape-significant characters ampersand, less-than and greater-than, no
carriage return and no NUL is preserved verbatim up to the
50000-code-point truncation — ampersands and angle brackets are instead
entity-escaped, carriage returns are normalized to line feeds and NULs
to the replacement character by the underlying cleaner. -/
theorem c5_sanitize_amended :
    (∀ s : String, (sanitize_input s).length ≤ 50000 ∧
      '<' ∉ (sanitize_input s).data ∧ '>' ∉ (sanitize_input s).data) ∧
    (sanitize_input "" = "" ∧ sanitizeValue Json.null = some "") ∧
    (∀ s : String,
      (∀ c ∈ s.data, c ≠ '<' ∧ c ≠ '>' ∧ c ≠ '&' ∧ c ≠ '\r' ∧ c ≠ Char.ofNat 0) →
      sanitize_input s = ⟨s.data.take 50000⟩) := by
  refine ⟨?_, ⟨rfl, rfl⟩, ?_⟩
  · intro s
    by_cases h : s = ""
    · subst h
      exact ⟨by decide, by decide, by decide⟩
    · unfold sanitize_input
      rw [if_neg h]
      unfold pyTruncate bleachClean
      refine ⟨?_, ?_, ?_⟩
      · show ((stripAndEscape (s.data.length + 1) (normalizeStream s.data)).take
          50000).length ≤ 50000
        rw [List.length_take]
        exact Nat.min_le_left _ _
      · intro hmem
        exact (stripAndEscape_no_angle _ _).1 (List.take_subset _ _ hmem)
      · intro hmem
        exact (stripAndEscape_no_angle _ _).2 (List.take_subset _ _ hmem)
  · intro s hc
    have hnorm : normalizeStream s.data = s.data :=
      normalizeStream_id s.data (fun c hmem =>
        ⟨(hc c hmem).2.2.2.1, (hc c hmem).2.2.2.2⟩)
    have hclean : ∀ c ∈ s.data, c ≠ '<' ∧ c ≠ '>' ∧ c ≠ '&' :=
      fun c hmem => ⟨(hc c hmem).1, (hc c hmem).2.1, (hc c hmem).2.2.1⟩
    by_cases h : s = ""
    · subst h
      rfl
    · unfold sanitize_input
      rw [if_neg h]
      unfold pyTruncate bleachClean
      rw [hnorm, stripAndEscape_clean (s.data.length + 1) s.data (Nat.le_succ _) hclean]

/-- C5 witness: verbatim preservation on a concrete markup-free text. -/
theorem c5_witness :
    (∀ c ∈ ("Alice and Bob" : String).data,
      c ≠ '<' ∧ c ≠ '>' ∧ c ≠ '&' ∧ c ≠ '\r' ∧ c ≠ Char.ofNat 0) ∧
    sanitize_input "Alice and Bob" = ⟨("Alice and Bob" : String).data.take 50000⟩ :=
  ⟨by decide, c5_sanitize_amended.2.2 "Alice and Bob" (by decide)⟩

end Decoder
